import Mathlib

/-!
Verification of the neural-nexus-pkg client core (src/core/NeuralNexus.ts).

The development shallowly embeds the `NeuralNexus` class: its constructor
validation, the axios response interceptor (error normalizer), token
lifecycle (setToken/clearToken), the event-emitter surface it inherits
(on/emit/removeAllListeners), the request methods (get/post/put/delete,
upload progress, stream decoding) and close().

Modelling conventions:
- JavaScript optional string fields become `Option String`; `none` models
  `undefined`/absent, `some ""` models a present but falsy empty string.
- The `||` fallback chains of the interceptor are modelled by
  `firstTruthy`, which picks the first present, non-empty string.
- `JSON.parse` is an external builtin; the stream decoder is parameterised
  over a partial parse function `parse : String → Option α`.
- Structured `details` payloads are opaque; `some p` models a present,
  truthy payload (response bodies carry objects, which are always truthy).
-/

namespace NeuralNexusPkg

/-- JavaScript truthiness of an optional string: present and non-empty. -/
def strTruthy (v : Option String) : Bool :=
  match v with
  | some s => s ≠ ""
  | none => false

/-- The value of a JavaScript chain `a1 || a2 || ... || d` over optional
strings with a mandatory non-empty literal default `d`. -/
def firstTruthy : List (Option String) → String → String
  | [], d => d
  | v :: rest, d =>
    match v with
    | some s => if s = "" then firstTruthy rest d else s
    | none => firstTruthy rest d

/-- The value of `a || b` where both operands are optional opaque payloads
(`some` = present and truthy). -/
def firstSome {α : Type} : Option α → Option α → Option α
  | some a, _ => some a
  | none, b => b

/-- Fields reachable under `error.response.data` that the interceptor
reads: `data.error.message`, `data.error.code`, `data.error.details`,
`data.message`, `data.code`, `data.details`. -/
structure ErrResponseData where
  nestedMessage : Option String
  nestedCode : Option String
  nestedDetails : Option String
  flatMessage : Option String
  flatCode : Option String
  flatDetails : Option String
deriving Repr, DecidableEq

/-- Fields reachable under `error.response`: the body (`data`), the HTTP
`status`, and the `x-request-id` response header. -/
structure ErrResponse where
  data : Option ErrResponseData
  status : Option Nat
  requestId : Option String
deriving Repr, DecidableEq

/-- An arbitrary transport failure value handed to the response
interceptor: an optional `response` and the raw exception `message`. -/
structure TransportFailure where
  response : Option ErrResponse
  message : Option String
deriving Repr, DecidableEq

/-- The `details` argument of a constructed `NeuralNexusError`. -/
inductive ErrDetails where
  /-- Omitted `details` (`undefined`), as in the constructor errors. -/
  | undef : ErrDetails
  /-- A structured payload taken from the response body. -/
  | payload (p : String) : ErrDetails
  /-- Synthesized `{ status, request_id }` object of the interceptor. -/
  | synthesized (status : Option Nat) (requestId : Option String) : ErrDetails
  /-- A raw caught error forwarded as details by the catch wrappers. -/
  | rawError (msg : String) : ErrDetails
deriving Repr, DecidableEq

/-- The `NeuralNexusError` shape (src/types/index.ts): message, code,
optional details. -/
structure NeuralNexusError where
  message : String
  code : String
  details : ErrDetails
deriving Repr, DecidableEq

/-- Chain `error.response?.data?.error?.message`. -/
def nestedMsg (e : TransportFailure) : Option String :=
  (e.response.bind (fun r => r.data)).bind (fun d => d.nestedMessage)

/-- Chain `error.response?.data?.message`. -/
def flatMsg (e : TransportFailure) : Option String :=
  (e.response.bind (fun r => r.data)).bind (fun d => d.flatMessage)

/-- Chain `error.response?.data?.error?.code`. -/
def nestedCode (e : TransportFailure) : Option String :=
  (e.response.bind (fun r => r.data)).bind (fun d => d.nestedCode)

/-- Chain `error.response?.data?.code`. -/
def flatCode (e : TransportFailure) : Option String :=
  (e.response.bind (fun r => r.data)).bind (fun d => d.flatCode)

/-- Chain `error.response?.data?.error?.details || error.response?.data?.details`. -/
def structuredDetails (e : TransportFailure) : Option String :=
  firstSome
    ((e.response.bind (fun r => r.data)).bind (fun d => d.nestedDetails))
    ((e.response.bind (fun r => r.data)).bind (fun d => d.flatDetails))

/-- Chain `error.response?.status`. -/
def respStatus (e : TransportFailure) : Option Nat :=
  e.response.bind (fun r => r.status)

/-- Chain `error.response?.headers?.['x-request-id']`. -/
def respRequestId (e : TransportFailure) : Option String :=
  e.response.bind (fun r => r.requestId)

/-- The body of the axios response interceptor's rejection handler
(src/core/NeuralNexus.ts lines 69-92): extract message, code and details
with the `||` fallback chains and build a `NeuralNexusError`. -/
def normalizeError (e : TransportFailure) : NeuralNexusError :=
  { message := firstTruthy [nestedMsg e, flatMsg e, e.message] "Unknown error occurred"
    code := firstTruthy [nestedCode e, flatCode e] "API_ERROR"
    details :=
      match structuredDetails e with
      | some p => ErrDetails.payload p
      | none => ErrDetails.synthesized (respStatus e) (respRequestId e) }

/-- A concrete deeply-nested failure used to instantiate the normalizer
theorems. -/
def eDeep : TransportFailure :=
  { response := some
      { data := some
          { nestedMessage := some "deep failure"
            nestedCode := some "DEEP"
            nestedDetails := some "deep-details"
            flatMessage := some "flat failure"
            flatCode := some "FLAT"
            flatDetails := none }
        status := some 400
        requestId := some "req-1" }
    message := some "boom" }

/-! ### Streaming decoder (NeuralNexus.stream, src/core/NeuralNexus.ts
lines 302-363)

The data handler is parameterised over `parse : String → Option α`
modelling the external `JSON.parse` builtin (`none` = the parse throws). -/

/-- Splitting on the newline character, rendered as structural
recursion over the character list so that concrete instances reduce in the
kernel; agrees with JavaScript `chunk.split('\n')` (empty pieces kept). -/
def splitNL : List Char → List (List Char)
  | [] => [[]]
  | c :: rest =>
    let r := splitNL rest
    if c = '\n' then [] :: r
    else
      match r with
      | [] => [[c]]
      | g :: gs => (c :: g) :: gs

/-- Test `line.trim() === ''`: the line consists solely of whitespace. -/
def isBlank (line : String) : Bool :=
  line.data.all Char.isWhitespace

/-- Test `line.startsWith('data: ')`. -/
def hasDataHead (line : String) : Bool :=
  "data: ".data.isPrefixOf line.data

/-- Rest `line.substring(6)`: the text after the six-character `data: ` head. -/
def restOfLine (line : String) : String :=
  String.mk (line.data.drop 6)

/-- The per-chunk line split of the stream data handler:
`chunk.toString().split('\n').filter((line) => line.trim() !== '')`. -/
def splitLines (chunk : String) : List String :=
  ((splitNL chunk.data).map String.mk).filter (fun l => !isBlank l)

/-- Whether a line is the sentinel line: it starts with the `data: `
head and the remaining text (`line.substring(6)`) equals `[DONE]`. -/
def isDoneLine (line : String) : Bool :=
  hasDataHead line && restOfLine line = "[DONE]"

/-- One pass of the stream data handler over the already-split lines of a
single chunk. Returns the consumer invocations made for this chunk and
whether the sentinel was hit; on the sentinel the handler calls `resolve()`
and returns early, so the remaining lines of that chunk are not processed.
A `data: ` line whose remainder fails to parse is skipped
(`catch (e) \x7b /* Ignore invalid JSON */ \x7d`); other lines are ignored. -/
def processLines {α : Type} (parse : String → Option α) : List String → List α × Bool
  | [] => ([], false)
  | line :: rest =>
    if hasDataHead line then
      if restOfLine line = "[DONE]" then ([], true)
      else
        match parse (restOfLine line) with
        | some v =>
          let r := processLines parse rest
          (v :: r.1, r.2)
        | none => processLines parse rest
    else processLines parse rest

/-- The stream data handler applied to one raw chunk. -/
def processChunk {α : Type} (parse : String → Option α) (chunk : String) : List α × Bool :=
  processLines parse (splitLines chunk)

/-- Delivery of a sequence of chunks to the data handler. `stream()` never
detaches the handler nor destroys the response stream after `resolve()`,
so every chunk is processed by the handler whether or not the promise has
already settled. Returns all consumer invocations, in arrival order, and
the index of the chunk at which `resolve()` was first called, if any. -/
def runChunks {α : Type} (parse : String → Option α) : List String → List α × Option Nat
  | [] => ([], none)
  | c :: cs =>
    let r := processChunk parse c
    let rest := runChunks parse cs
    (r.1 ++ rest.1, if r.2 then some 0 else rest.2.map (fun i => i + 1))

/-- How the underlying response stream terminates after its data chunks:
a clean `end` event or an `error` event carrying a transport fault. -/
inductive StreamTerminal where
  | endOfStream : StreamTerminal
  | transportError (msg : String) : StreamTerminal
deriving Repr, DecidableEq

/-- Settlement of the promise returned by `stream()` for a successfully
opened stream: the consumer invocations, the `error` events emitted on the
bus during streaming (the `stream` body contains no `emit` call), and the
settlement value. A sentinel resolves the promise; once settled, the later
`end`/`error` callbacks are no-ops. Without a sentinel, `end` resolves and
`error` rejects with the `STREAM_ERROR` normalized error. -/
def streamSettle {α : Type} (parse : String → Option α) (chunks : List String)
    (terminal : StreamTerminal) :
    List α × List NeuralNexusError × Except NeuralNexusError Unit :=
  let r := runChunks parse chunks
  (r.1, [],
    match r.2 with
    | some _ => Except.ok ()
    | none =>
      match terminal with
      | StreamTerminal.endOfStream => Except.ok ()
      | StreamTerminal.transportError m =>
        Except.error
          { message := "Stream error", code := "STREAM_ERROR"
            details := ErrDetails.rawError m })

/-- A concrete stand-in for `JSON.parse` on the frames used in the
concrete instantiations below: a non-empty all-digit frame is a valid JSON
number and decodes to it, anything else (for example `"not-json"`) makes
`JSON.parse` throw. -/
def parseNum (s : String) : Option Nat :=
  if s.data ≠ [] ∧ s.data.all Char.isDigit then
    some (s.data.foldl (fun n c => 10 * n + (c.toNat - 48)) 0)
  else none

/-! ### Client facade: constructor, token lifecycle, events, requests
(src/core/NeuralNexus.ts) -/

/-- The `NeuralNexusConfig` interface (src/types/index.ts), restricted to
the fields the core reads (`storageConfig`/`authConfig` are opaque and
never inspected by `NeuralNexus`). Required fields are still `Option`s so
that the constructor validation of missing values can be stated. -/
structure NeuralNexusConfig where
  apiKey : Option String
  environment : Option String
  apiUrl : Option String
  timeout : Option Nat
  storageProvider : Option String
  keyType : Option String
deriving Repr, DecidableEq

/-- Method `getDefaultApiUrl` (lines 141-145). -/
def getDefaultApiUrl (environment : String) : String :=
  if environment = "production" then "https://api.neuralnexus.ai/v1"
  else "https://api.dev.neuralnexus.ai/v1"

/-- The value of `a || d` over an optional numeric field (JavaScript
treats both `undefined` and 0 as falsy). -/
def natOr (v : Option Nat) (d : Nat) : Nat :=
  match v with
  | some n => if n = 0 then d else n
  | none => d

/-- Method `validateApiKey` (lines 114-135): the four-character key head
selects the key type; an unrecognised head only warns and sets nothing. -/
def keyTypeFor (apiKey : String) : Option String :=
  let p := String.mk (apiKey.data.take 4)
  if p = "nxt_" then some "test"
  else if p = "nnd_" then some "development"
  else if p = "ntr_" then some "training"
  else if p = "ndp_" then some "deployment"
  else if p = "npr_" then some "production"
  else none

/-- The state of a `NeuralNexus` instance: the resolved configuration, the
current `Authorization` default header of the axios instance, the session
token, the refresh timer, and the inherited `EventEmitter` listener
registry (event name and listener identity, in registration order). -/
structure Client where
  config : NeuralNexusConfig
  authHeader : String
  token : Option String
  refreshTimer : Option Unit
  listeners : List (String × Nat)
deriving Repr, DecidableEq

/-- The listener identities a synchronous emission of `ev` reaches, in
registration order (Node's `EventEmitter.emit`). -/
def listenersFor (ev : String) (c : Client) : List Nat :=
  (c.listeners.filter (fun p => p.1 = ev)).map (fun p => p.2)

/-- Registration `on(ev, listener)`: appends to the registry (named
`onEvent` here because `on` is reserved in Lean). -/
def onEvent (ev : String) (i : Nat) (c : Client) : Client :=
  { c with listeners := c.listeners ++ [(ev, i)] }

/-- Emission `emit(ev, payload?)`: synchronously invokes the currently
registered listeners for `ev`, in registration order; returns the invoked
listener identities. The registry itself is unchanged. -/
def emit (ev : String) (c : Client) : List Nat :=
  listenersFor ev c

/-- Successive registrations of `ids` for `ev`, in order. -/
def registerAll (ev : String) (ids : List Nat) (c : Client) : Client :=
  ids.foldl (fun acc i => onEvent ev i acc) c

/-- Method `close()` (lines 368-375): clear the refresh timer, emit one
final `disconnected` event, then `removeAllListeners()`. Returns the new
state and the listener identities the final emission reached. -/
def close (c : Client) : Client × List Nat :=
  let c1 := { c with refreshTimer := none }
  let delivered := emit "disconnected" c1
  ({ c1 with listeners := [] }, delivered)

/-- The constructor (lines 30-107): validate `apiKey` and `environment`
(JavaScript falsiness), resolve defaults (`apiUrl`, 30000 ms timeout,
`google` storage), set the default headers with the bearer credential,
run `validateApiKey`, and emit `connected` on the brand-new instance.
Returns the instance together with the listener identities that the
`connected` emission reached. -/
def mkClient (config : NeuralNexusConfig) : Except NeuralNexusError (Client × List Nat) :=
  if strTruthy config.apiKey = false then
    Except.error
      { message := "API key is required to initialize the Neural Nexus client"
        code := "INVALID_CONFIG", details := ErrDetails.undef }
  else if strTruthy config.environment = false then
    Except.error
      { message := "Environment (production or development) must be specified"
        code := "INVALID_CONFIG", details := ErrDetails.undef }
  else
    let apiKey := config.apiKey.getD ""
    let environment := config.environment.getD ""
    let resolved : NeuralNexusConfig :=
      { config with
        apiUrl := some (firstTruthy [config.apiUrl] (getDefaultApiUrl environment))
        timeout := some (natOr config.timeout 30000)
        storageProvider := some (firstTruthy [config.storageProvider] "google") }
    let resolved2 : NeuralNexusConfig :=
      { resolved with
        keyType :=
          match keyTypeFor apiKey with
          | some t => some t
          | none => resolved.keyType }
    let c : Client :=
      { config := resolved2
        authHeader := "Bearer " ++ apiKey
        token := none
        refreshTimer := none
        listeners := [] }
    Except.ok (c, emit "connected" c)

/-- Method `setToken` (lines 151-154): store the session token and point
the default `Authorization` header at it. -/
def setToken (t : String) (c : Client) : Client :=
  { c with token := some t, authHeader := "Bearer " ++ t }

/-- Method `clearToken` (lines 159-163): drop the session token and
restore the original API-key authentication. -/
def clearToken (c : Client) : Client :=
  { c with token := none, authHeader := "Bearer " ++ c.config.apiKey.getD "" }

/-- The outcome of the underlying axios exchange for one request: a 2xx
body, a failure routed through the response interceptor, or a failure
value that reaches the method's `catch` block without having been
normalized by the interceptor. -/
inductive TransportOutcome (T : Type) where
  | success (body : T)
  | failure (e : TransportFailure)
  | rawFailure (msg : String)
deriving Repr

/-- The observable behaviour of one public request method call: the
headers attached to the request, the `error` events emitted on the bus,
and the returned or thrown value. -/
structure RequestRun (T : Type) where
  headers : List (String × String)
  emissions : List NeuralNexusError
  result : Except NeuralNexusError T
deriving Repr

/-- The default headers of the axios instance attached to every request
(content type and current bearer identity). -/
def requestHeaders (c : Client) : List (String × String) :=
  [("Content-Type", "application/json"), ("Authorization", c.authHeader)]

/-- Method `get` (lines 185-199): on success return `response.data`; a
failure routed through the interceptor raises the normalized error after
the interceptor emitted it (`error instanceof NeuralNexusError` rethrows
without a second emission); any other caught value is wrapped in an
`API_REQUEST_FAILED` error and thrown without any emission. -/
def get {T : Type} (c : Client) (endpoint : String) (t : TransportOutcome T) : RequestRun T :=
  match t with
  | TransportOutcome.success b =>
    { headers := requestHeaders c, emissions := [], result := Except.ok b }
  | TransportOutcome.failure e =>
    { headers := requestHeaders c
      emissions := [normalizeError e]
      result := Except.error (normalizeError e) }
  | TransportOutcome.rawFailure m =>
    { headers := requestHeaders c
      emissions := []
      result := Except.error
        { message := "Failed to fetch data from " ++ endpoint
          code := "API_REQUEST_FAILED", details := ErrDetails.rawError m } }

/-- One axios upload progress event: cumulative bytes loaded and the
total payload size when known (`undefined` when unknown; JavaScript also
treats a total of 0 as falsy). -/
structure ProgressEvent where
  loaded : Nat
  total : Option Nat
deriving Repr, DecidableEq

/-- JavaScript `Math.round(a / b)` for natural `a` and positive `b`:
the floor of `a / b + 1 / 2`, halves rounding up, computed exactly on
the rational value. -/
def jsRound (a b : Nat) : Nat :=
  (2 * a + b) / (2 * b)

/-- The `onUploadProgress` handler of `upload` (lines 276-281) over a
sequence of progress events, with an `onProgress` callback provided: for
each event whose total is known (truthy), report
`Math.round(loaded * 100 / total)`; otherwise report nothing. -/
def onUploadProgressCalls (events : List ProgressEvent) : List Nat :=
  events.filterMap (fun ev =>
    match ev.total with
    | some t => if t = 0 then none else some (jsRound (ev.loaded * 100) t)
    | none => none)

/-- A concrete valid development configuration. -/
def cfgDev : NeuralNexusConfig :=
  { apiKey := some "nxt_key1", environment := some "development"
    apiUrl := none, timeout := none, storageProvider := none, keyType := none }

/-- The instance the constructor builds from `cfgDev`. -/
def clientDev : Client :=
  { config :=
      { apiKey := some "nxt_key1", environment := some "development"
        apiUrl := some "https://api.dev.neuralnexus.ai/v1"
        timeout := some 30000, storageProvider := some "google"
        keyType := some "test" }
    authHeader := "Bearer nxt_key1"
    token := none
    refreshTimer := none
    listeners := [] }

/-- A configuration with the credential missing. -/
def cfgNoKey : NeuralNexusConfig :=
  { apiKey := none, environment := some "development"
    apiUrl := none, timeout := none, storageProvider := none, keyType := none }

/-- A concrete progress-event trace for a fully delivered 200-byte
payload. -/
def progEvents : List ProgressEvent :=
  [{ loaded := 0, total := some 200 },
   { loaded := 100, total := some 200 },
   { loaded := 200, total := some 200 }]

/-! ### Lemmas and claim theorems -/

lemma firstTruthy_cons_truthy {s : String} (hs : s ≠ "") (rest : List (Option String)) (d : String) :
    firstTruthy (some s :: rest) d = s := by
  simp [firstTruthy, hs]

lemma firstTruthy_cons_falsy {v : Option String} (h : strTruthy v = false)
    (rest : List (Option String)) (d : String) :
    firstTruthy (v :: rest) d = firstTruthy rest d := by
  cases v with
  | none => simp [firstTruthy]
  | some s =>
    have hs : s = "" := by simpa [strTruthy] using h
    simp [firstTruthy, hs]

lemma firstTruthy_ne_empty (l : List (Option String)) {d : String} (hd : d ≠ "") :
    firstTruthy l d ≠ "" := by
  induction l with
  | nil => simpa [firstTruthy] using hd
  | cons v rest ih =>
    cases v with
    | none => simpa [firstTruthy] using ih
    | some s =>
      by_cases hs : s = ""
      · simpa [firstTruthy, hs] using ih
      · simp [firstTruthy, hs]

/-- C1: for every transport failure value handed to the error normalizer,
normalization is total (a Lean function, so it cannot throw) and yields a
non-empty message and a non-empty code, extracting the message in priority
order nested `error.message`, flat `message`, raw exception message, then
the fixed fallback, the code in order nested `error.code`, flat `code`,
then `API_ERROR`, and the details from the structured payload when present,
otherwise synthesized from the HTTP status and the x-request-id header. -/
theorem c1_error_normalizer_total (e : TransportFailure) :
    (normalizeError e).message ≠ "" ∧
    (normalizeError e).code ≠ "" ∧
    (∀ m, nestedMsg e = some m → m ≠ "" → (normalizeError e).message = m) ∧
    (strTruthy (nestedMsg e) = false →
      ∀ m, flatMsg e = some m → m ≠ "" → (normalizeError e).message = m) ∧
    (strTruthy (nestedMsg e) = false → strTruthy (flatMsg e) = false →
      ∀ m, e.message = some m → m ≠ "" → (normalizeError e).message = m) ∧
    (strTruthy (nestedMsg e) = false → strTruthy (flatMsg e) = false →
      strTruthy e.message = false →
      (normalizeError e).message = "Unknown error occurred") ∧
    (∀ c, nestedCode e = some c → c ≠ "" → (normalizeError e).code = c) ∧
    (strTruthy (nestedCode e) = false →
      ∀ c, flatCode e = some c → c ≠ "" → (normalizeError e).code = c) ∧
    (strTruthy (nestedCode e) = false → strTruthy (flatCode e) = false →
      (normalizeError e).code = "API_ERROR") ∧
    (∀ p, structuredDetails e = some p →
      (normalizeError e).details = ErrDetails.payload p) ∧
    (structuredDetails e = none →
      (normalizeError e).details =
        ErrDetails.synthesized (respStatus e) (respRequestId e)) := by
  refine ⟨?_, ?_, ?_, ?_, ?_, ?_, ?_, ?_, ?_, ?_, ?_⟩
  · exact firstTruthy_ne_empty _ (by decide)
  · exact firstTruthy_ne_empty _ (by decide)
  · intro m hm hne
    simp [normalizeError, hm, firstTruthy_cons_truthy hne]
  · intro h1 m hm hne
    simp [normalizeError, firstTruthy_cons_falsy h1, hm,
      firstTruthy_cons_truthy hne]
  · intro h1 h2 m hm hne
    simp [normalizeError, firstTruthy_cons_falsy h1, firstTruthy_cons_falsy h2,
      hm, firstTruthy_cons_truthy hne]
  · intro h1 h2 h3
    show firstTruthy [nestedMsg e, flatMsg e, e.message] "Unknown error occurred" = _
    rw [firstTruthy_cons_falsy h1, firstTruthy_cons_falsy h2,
      firstTruthy_cons_falsy h3]
    rfl
  · intro c hc hne
    simp [normalizeError, hc, firstTruthy_cons_truthy hne]
  · intro h1 c hc hne
    simp [normalizeError, firstTruthy_cons_falsy h1, hc,
      firstTruthy_cons_truthy hne]
  · intro h1 h2
    show firstTruthy [nestedCode e, flatCode e] "API_ERROR" = _
    rw [firstTruthy_cons_falsy h1, firstTruthy_cons_falsy h2]
    rfl
  · intro p hp
    simp [normalizeError, hp]
  · intro hp
    simp [normalizeError, hp]

/-- C1 witness: the normalizer at the concrete deeply-nested failure
`eDeep` extracts the nested message, nested code and structured payload. -/
theorem c1_error_normalizer_total_witness :
    (normalizeError eDeep).message = "deep failure" ∧
    (normalizeError eDeep).code = "DEEP" ∧
    (normalizeError eDeep).details = ErrDetails.payload "deep-details" := by
  have h := c1_error_normalizer_total eDeep
  exact ⟨h.2.2.1 "deep failure" rfl (by decide),
    h.2.2.2.2.2.2.1 "DEEP" rfl (by decide),
    h.2.2.2.2.2.2.2.2.2.1 "deep-details" rfl⟩

lemma processLines_append_no_done {α : Type} (parse : String → Option α)
    (pre : List String) (suffix : List String)
    (hpre : ∀ l ∈ pre, isDoneLine l = false) :
    processLines parse (pre ++ suffix) =
      ((processLines parse pre).1 ++ (processLines parse suffix).1,
        (processLines parse suffix).2) := by
  induction pre with
  | nil => simp [processLines]
  | cons p rest ih =>
    have hp : isDoneLine p = false := hpre p (by simp)
    have hrest : ∀ l ∈ rest, isDoneLine l = false := fun l hl => hpre l (by simp [hl])
    by_cases hh : hasDataHead p = true
    · have hnd : ¬ restOfLine p = "[DONE]" := by
        intro hcontra
        simp [isDoneLine, hh, hcontra] at hp
      cases hv : parse (restOfLine p) with
      | some v =>
        simp [processLines, hh, hnd, hv, ih hrest]
      | none =>
        simp [processLines, hh, hnd, hv, ih hrest]
    · simp [processLines, hh, ih hrest]

/-- C2 counterexample: deliver the sentinel in the first chunk and a valid
frame in a second chunk afterwards. The completion signal resolves at the
sentinel chunk (index 0), yet the consumer callback is still invoked with
the frame `7` of the chunk delivered after the sentinel, because `stream()`
never detaches its data handler after `resolve()`. -/
theorem c2_sentinel_counterexample :
    runChunks parseNum ["data: [DONE]\n", "data: 7\n"] = ([7], some 0) := by
  rfl

/-- C2 amended: when a `data: ` line carries the sentinel, the completion
signal is resolved immediately and the remaining lines of that same chunk
are not processed; however the data handler stays attached, so every chunk
— also chunks delivered after the sentinel — contributes its decoded
frames to the consumer, and the resolution index is exactly the first
chunk whose processing hits the sentinel. -/
theorem c2_sentinel_amended {α : Type} (parse : String → Option α)
    (chunks : List String) :
    (runChunks parse chunks).1 =
      (chunks.map (fun c => (processChunk parse c).1)).flatten ∧
    ((runChunks parse chunks).2 = none ↔
      ∀ c ∈ chunks, (processChunk parse c).2 = false) ∧
    (∀ n, (runChunks parse chunks).2 = some n →
      (∀ c ∈ chunks.take n, (processChunk parse c).2 = false) ∧
      ∃ h : n < chunks.length, (processChunk parse (chunks.get ⟨n, h⟩)).2 = true) ∧
    (∀ pre line post, isDoneLine line = true →
      (∀ l ∈ pre, isDoneLine l = false) →
      processLines parse (pre ++ line :: post) = ((processLines parse pre).1, true)) := by
  refine ⟨?_, ?_, ?_, ?_⟩
  · induction chunks with
    | nil => simp [runChunks]
    | cons c cs ih => simp [runChunks, ih]
  · induction chunks with
    | nil => simp [runChunks]
    | cons c cs ih =>
      by_cases hc : (processChunk parse c).2 = true
      · simp [runChunks, hc]
      · simp only [Bool.not_eq_true] at hc
        simp [runChunks, hc, ih]
  · intro n
    induction chunks generalizing n with
    | nil => simp [runChunks]
    | cons c cs ih =>
      intro hn
      by_cases hc : (processChunk parse c).2 = true
      · simp only [runChunks, hc, if_true] at hn
        cases hn
        exact ⟨by simp, by simpa using hc⟩
      · simp only [Bool.not_eq_true] at hc
        simp only [runChunks, hc, Bool.false_eq_true, if_false, Option.map_eq_some'] at hn
        obtain ⟨m, hm, rfl⟩ := hn
        obtain ⟨htake, hlt, hget⟩ := ih m hm
        refine ⟨?_, ?_⟩
        · intro x hx
          simp only [List.take_succ_cons, List.mem_cons] at hx
          rcases hx with rfl | hx
          · exact hc
          · exact htake x hx
        · exact ⟨by simpa using hlt, by simpa using hget⟩
  · intro pre line post hline hpre
    have hh : hasDataHead line = true := by
      simp only [isDoneLine, Bool.and_eq_true] at hline
      exact hline.1
    have hr : restOfLine line = "[DONE]" := by
      simp only [isDoneLine, Bool.and_eq_true, decide_eq_true_eq] at hline
      exact hline.2
    have hstep : processLines parse (line :: post) = ([], true) := by
      simp [processLines, hh, hr]
    rw [processLines_append_no_done parse pre (line :: post) hpre, hstep]
    simp

/-- C2 amended witness: in the chunk `"data: 2\ndata: [DONE]\ndata: 9\n"`
the line after the sentinel is skipped (frame 9 is not delivered from it),
while the sentinel still follows the valid frame 2. -/
theorem c2_sentinel_amended_witness :
    processLines parseNum (["data: 2"] ++ "data: [DONE]" :: ["data: 9"]) = ([2], true) := by
  have h := (c2_sentinel_amended parseNum []).2.2.2
    ["data: 2"] "data: [DONE]" ["data: 9"] (by decide) (by decide)
  exact h.trans (by rfl)

/-- C7: a `data: `-prefixed line whose remainder fails JSON decoding is
silently discarded — removing it does not change the processing of the
surrounding lines — and in a sentinel-free line sequence the consumer
receives exactly the successfully decoded `data: ` frames, in arrival
order, with no abort and no rejection. -/
theorem c7_malformed_frame_skipped {α : Type} (parse : String → Option α)
    (pre post : List String) (line : String)
    (hh : hasDataHead line = true)
    (hnd : restOfLine line ≠ "[DONE]")
    (hparse : parse (restOfLine line) = none) :
    processLines parse (pre ++ line :: post) = processLines parse (pre ++ post) ∧
    (∀ lines : List String, (∀ l ∈ lines, isDoneLine l = false) →
      processLines parse lines =
        (lines.filterMap (fun l => if hasDataHead l then parse (restOfLine l) else none),
          false)) := by
  constructor
  · induction pre with
    | nil =>
      simp [processLines, hh, hnd, hparse]
    | cons p rest ih =>
      by_cases hp : hasDataHead p = true
      · by_cases hpd : restOfLine p = "[DONE]"
        · simp [processLines, hp, hpd]
        · cases hv : parse (restOfLine p) with
          | some v => simp [processLines, hp, hpd, hv, ih]
          | none => simp [processLines, hp, hpd, hv, ih]
      · simp [processLines, hp, ih]
  · intro lines hnodone
    induction lines with
    | nil => simp [processLines]
    | cons l rest ih =>
      have hl : isDoneLine l = false := hnodone l (by simp)
      have hrest : ∀ x ∈ rest, isDoneLine x = false := fun x hx => hnodone x (by simp [hx])
      by_cases hld : hasDataHead l = true
      · have hlnd : ¬ restOfLine l = "[DONE]" := by
          intro hcontra
          simp [isDoneLine, hld, hcontra] at hl
        cases hv : parse (restOfLine l) with
        | some v => simp [processLines, hld, hlnd, hv, ih hrest]
        | none => simp [processLines, hld, hlnd, hv, ih hrest]
      · simp [processLines, hld, ih hrest]

/-- C7 witness: the chunk lines `data: 1`, `data: not-json`, `data: 2`
deliver exactly the frames 1 and 2, in order, without aborting. -/
theorem c7_malformed_frame_skipped_witness :
    processLines parseNum (["data: 1"] ++ "data: not-json" :: ["data: 2"]) = ([1, 2], false) := by
  have h := c7_malformed_frame_skipped parseNum ["data: 1"] ["data: 2"] "data: not-json"
    (by decide) (by decide) (by decide)
  exact h.1.trans (by rfl)

lemma mkClient_cfgDev : mkClient cfgDev = Except.ok (clientDev, []) := by
  rfl

lemma mkClient_ok_inv (cfg : NeuralNexusConfig) (c : Client) (ds : List Nat)
    (hc : mkClient cfg = Except.ok (c, ds)) :
    c.authHeader = "Bearer " ++ cfg.apiKey.getD "" ∧
    c.config.apiKey = cfg.apiKey ∧
    c.listeners = [] ∧ ds = [] := by
  by_cases h1 : strTruthy cfg.apiKey = false
  · simp [mkClient, h1] at hc
  · by_cases h2 : strTruthy cfg.environment = false
    · simp [mkClient, h1, h2] at hc
    · rw [mkClient, if_neg h1, if_neg h2] at hc
      have h := Except.ok.inj hc
      have hfst := congrArg Prod.fst h
      have hsnd := congrArg Prod.snd h
      simp only [] at hfst hsnd
      subst hfst
      subst hsnd
      exact ⟨rfl, rfl, rfl, rfl⟩

lemma listenersFor_registerAll (ev : String) (ids : List Nat) (c : Client) :
    listenersFor ev (registerAll ev ids c) = listenersFor ev c ++ ids := by
  induction ids generalizing c with
  | nil => simp [registerAll]
  | cons i rest ih =>
    have hstep : registerAll ev (i :: rest) c = registerAll ev rest (onEvent ev i c) := by
      simp [registerAll]
    rw [hstep, ih]
    simp [onEvent, listenersFor, List.filter_append]

lemma jsRound_full (T : Nat) (hT : 0 < T) : jsRound (T * 100) T = 100 := by
  rw [jsRound]
  have h1 : 2 * (T * 100) + T = 201 * T := by ring
  rw [h1]
  exact Nat.div_eq_of_lt_le (by omega) (by omega)

/-- C8: constructing the facade with a missing credential throws a
synchronous `INVALID_CONFIG` error; with a credential but a missing
environment it throws a synchronous `INVALID_CONFIG` error as well; with
both present construction succeeds (no request is modelled inside the
constructor at all). -/
theorem c8_constructor_validation (cfg : NeuralNexusConfig) :
    (strTruthy cfg.apiKey = false →
      mkClient cfg = Except.error
        { message := "API key is required to initialize the Neural Nexus client"
          code := "INVALID_CONFIG", details := ErrDetails.undef }) ∧
    (strTruthy cfg.apiKey = true → strTruthy cfg.environment = false →
      mkClient cfg = Except.error
        { message := "Environment (production or development) must be specified"
          code := "INVALID_CONFIG", details := ErrDetails.undef }) ∧
    (strTruthy cfg.apiKey = true → strTruthy cfg.environment = true →
      ∃ c ds, mkClient cfg = Except.ok (c, ds)) := by
  refine ⟨?_, ?_, ?_⟩
  · intro h
    simp [mkClient, h]
  · intro h1 h2
    simp [mkClient, h1, h2]
  · intro h1 h2
    rw [mkClient, if_neg (by simp [h1]), if_neg (by simp [h2])]
    exact ⟨_, _, rfl⟩

/-- C8 witness: a configuration without credential is rejected with
`INVALID_CONFIG`, and the concrete development configuration constructs
successfully. -/
theorem c8_constructor_validation_witness :
    mkClient cfgNoKey = Except.error
      { message := "API key is required to initialize the Neural Nexus client"
        code := "INVALID_CONFIG", details := ErrDetails.undef } ∧
    ∃ c ds, mkClient cfgDev = Except.ok (c, ds) := by
  exact ⟨(c8_constructor_validation cfgNoKey).1 (by decide),
    (c8_constructor_validation cfgDev).2.2 (by decide) (by decide)⟩

/-- C4: on a client constructed with credential `k`, `setToken t` makes
every subsequent request attach `Bearer t`, and a following `clearToken`
restores exactly the pre-`setToken` headers, `Bearer k`. -/
theorem c4_token_roundtrip (cfg : NeuralNexusConfig) (k t : String)
    (hk : cfg.apiKey = some k) (c : Client) (ds : List Nat)
    (hc : mkClient cfg = Except.ok (c, ds)) :
    requestHeaders c =
      [("Content-Type", "application/json"), ("Authorization", "Bearer " ++ k)] ∧
    requestHeaders (setToken t c) =
      [("Content-Type", "application/json"), ("Authorization", "Bearer " ++ t)] ∧
    requestHeaders (clearToken (setToken t c)) = requestHeaders c := by
  obtain ⟨hauth, hkey, -, -⟩ := mkClient_ok_inv cfg c ds hc
  rw [hk] at hauth hkey
  simp only [Option.getD_some] at hauth
  refine ⟨?_, ?_, ?_⟩
  · simp [requestHeaders, hauth]
  · simp [requestHeaders, setToken]
  · simp [requestHeaders, clearToken, setToken, hkey, hauth]

/-- C4 witness: the round trip on the concrete development client with
session token `sess`. -/
theorem c4_token_roundtrip_witness :
    requestHeaders (setToken "sess" clientDev) =
      [("Content-Type", "application/json"), ("Authorization", "Bearer sess")] ∧
    requestHeaders (clearToken (setToken "sess" clientDev)) = requestHeaders clientDev := by
  have h := c4_token_roundtrip cfgDev "nxt_key1" "sess" rfl clientDev [] mkClient_cfgDev
  exact ⟨h.2.1, h.2.2⟩

/-- C3 counterexample: after `close()` the instance is not in a terminal
state. A `get` on the closed instance still performs its normal effect
(it returns the response envelope with the usual headers instead of
failing), and a fresh listener registered after `close` receives a
subsequent emission — the instance is effectively restartable. -/
theorem c3_terminal_close_counterexample :
    (get (close clientDev).1 "/models" (TransportOutcome.success 42)).result =
      Except.ok 42 ∧
    (get (close clientDev).1 "/models" (TransportOutcome.success 42)).headers =
      requestHeaders clientDev ∧
    emit "connected" (onEvent "connected" 7 (close clientDev).1) = [7] := by
  exact ⟨rfl, rfl, rfl⟩

/-- C3 amended: `close()` clears the refresh timer and empties the
listener registry, so emissions on the closed instance reach no pre-close
listener; but no closed flag exists: subsequent requests behave exactly
as before `close`, emissions still run (reaching listeners registered
after the close), and nothing prevents continued use of the instance. -/
theorem c3_close_cleanup_amended {T : Type} (c : Client) (ep ev : String)
    (t : TransportOutcome T) (i : Nat) :
    (close c).1.listeners = [] ∧
    (close c).1.refreshTimer = none ∧
    get (close c).1 ep t = get c ep t ∧
    emit ev (close c).1 = [] ∧
    emit ev (onEvent ev i (close c).1) = [i] := by
  refine ⟨rfl, rfl, ?_, ?_, ?_⟩
  · cases t <;> rfl
  · simp [emit, listenersFor, close]
  · simp [emit, listenersFor, close, onEvent]

/-- C5: `close()` delivers the final `disconnected` emission exactly to
the listeners registered for `disconnected` before the call (once per
registration, in registration order), leaves the registry empty for every
event, and afterwards an emission of any event reaches exactly the
listeners newly registered after the close. -/
theorem c5_close_disconnect_delivery (c : Client) (ev : String) (ids : List Nat) :
    (close c).2 = listenersFor "disconnected" c ∧
    (close c).1.listeners = [] ∧
    emit ev (registerAll ev ids (close c).1) = ids := by
  refine ⟨rfl, rfl, ?_⟩
  rw [emit, listenersFor_registerAll]
  simp [listenersFor, close]

/-- C6 counterexample: a transport fault on an open stream rejects the
`stream()` promise with a `STREAM_ERROR` normalized error — an error
raised across a public method boundary — while the bus receives zero
`error` emissions for it. -/
theorem c6_error_emission_counterexample :
    (streamSettle parseNum [] (StreamTerminal.transportError "ECONNRESET")).2.2 =
      Except.error
        { message := "Stream error", code := "STREAM_ERROR"
          details := ErrDetails.rawError "ECONNRESET" } ∧
    (streamSettle parseNum [] (StreamTerminal.transportError "ECONNRESET")).2.1 = [] := by
  exact ⟨rfl, rfl⟩

/-- C6 amended: errors normalized by the response interceptor are emitted
on the bus exactly once per raised error and then raised; but errors that
bypass the interceptor — the catch-wrapper `API_REQUEST_FAILED` path and
the stream transport-error path — are raised with zero `error`
emissions. -/
theorem c6_error_emission_amended {T : Type} {α : Type} (c : Client) (ep m : String)
    (e : TransportFailure) (parse : String → Option α) (chunks : List String) :
    (@get T c ep (TransportOutcome.failure e)).emissions = [normalizeError e] ∧
    (@get T c ep (TransportOutcome.failure e)).result =
      Except.error (normalizeError e) ∧
    (@get T c ep (TransportOutcome.rawFailure m)).emissions = [] ∧
    (@get T c ep (TransportOutcome.rawFailure m)).result =
      Except.error
        { message := "Failed to fetch data from " ++ ep
          code := "API_REQUEST_FAILED", details := ErrDetails.rawError m } ∧
    (streamSettle parse chunks (StreamTerminal.transportError m)).2.1 = [] := by
  exact ⟨rfl, rfl, rfl, rfl, rfl⟩

/-- C9: with a known positive total, the progress callback reports
exactly `round(loaded * 100 / total)` per event, the reported sequence is
monotonically non-decreasing when the loaded bytes are, and a trace whose
final event has `loaded = total` ends at 100; with the total unknown on
every event the callback is never invoked. -/
theorem c9_upload_progress (events : List ProgressEvent) (T : Nat) (hT : 0 < T)
    (htot : ∀ ev ∈ events, ev.total = some T)
    (hmono : List.Chain' (fun a b => a ≤ b) (events.map (fun ev => ev.loaded))) :
    onUploadProgressCalls events =
      events.map (fun ev => jsRound (ev.loaded * 100) T) ∧
    List.Chain' (fun a b => a ≤ b) (onUploadProgressCalls events) ∧
    (∀ ev, events.getLast? = some ev → ev.loaded = T →
      (onUploadProgressCalls events).getLast? = some 100) ∧
    (∀ evs : List ProgressEvent, (∀ ev ∈ evs, ev.total = none) →
      onUploadProgressCalls evs = []) := by
  have hTne : T ≠ 0 := Nat.pos_iff_ne_zero.mp hT
  have heq : ∀ evs : List ProgressEvent, (∀ ev ∈ evs, ev.total = some T) →
      onUploadProgressCalls evs = evs.map (fun ev => jsRound (ev.loaded * 100) T) := by
    intro evs
    induction evs with
    | nil => intro _; rfl
    | cons ev rest ih =>
      intro h
      have h1 : ev.total = some T := h ev (by simp)
      have hrest := ih (fun x hx => h x (by simp [hx]))
      simp only [onUploadProgressCalls, List.filterMap_cons, h1, hTne, if_neg,
        List.map_cons] at hrest ⊢
      rw [← hrest]
      rfl
  refine ⟨heq events htot, ?_, ?_, ?_⟩
  · rw [heq events htot]
    have hmm : events.map (fun ev => jsRound (ev.loaded * 100) T) =
        (events.map (fun ev => ev.loaded)).map (fun l => jsRound (l * 100) T) := by
      simp [List.map_map, Function.comp]
    rw [hmm]
    refine List.chain'_map_of_chain' _ ?_ hmono
    intro a b hab
    simp only [jsRound]
    exact Nat.div_le_div_right (by omega)
  · intro ev hlast hload
    rw [heq events htot, List.getLast?_map, hlast]
    simp [hload, jsRound_full T hT]
  · intro evs h
    induction evs with
    | nil => rfl
    | cons ev rest ih =>
      have h1 : ev.total = none := h ev (by simp)
      have hrest := ih (fun x hx => h x (by simp [hx]))
      simp [onUploadProgressCalls, List.filterMap_cons, h1] at hrest ⊢
      exact hrest

/-- C9 witness: the concrete fully-delivered 200-byte trace reports 0,
50, 100 — non-decreasing and ending at 100. -/
theorem c9_upload_progress_witness :
    onUploadProgressCalls progEvents = [0, 50, 100] ∧
    (onUploadProgressCalls progEvents).getLast? = some 100 := by
  have h := c9_upload_progress progEvents 200 (by decide) (by decide)
    (by simp [progEvents, List.chain'_cons])
  refine ⟨?_, h.2.2.1 { loaded := 200, total := some 200 } (by decide) rfl⟩
  rw [h.1]
  rfl

/-- C10: the `connected` emission happens synchronously inside the
constructor, on a registry that is necessarily still empty, so for every
successful construction it is delivered to zero caller-registered
listeners; the instance starts with an empty registry. -/
theorem c10_connected_unobservable (cfg : NeuralNexusConfig) (c : Client)
    (ds : List Nat) (hc : mkClient cfg = Except.ok (c, ds)) :
    ds = [] ∧ c.listeners = [] := by
  obtain ⟨-, -, hl, hd⟩ := mkClient_ok_inv cfg c ds hc
  exact ⟨hd, hl⟩

/-- C10 witness: the concrete development construction delivers its
`connected` emission to nobody. -/
theorem c10_connected_unobservable_witness :
    mkClient cfgDev = Except.ok (clientDev, []) ∧ clientDev.listeners = [] := by
  exact ⟨mkClient_cfgDev,
    (c10_connected_unobservable cfgDev clientDev [] mkClient_cfgDev).2⟩

end NeuralNexusPkg
